import Mathlib

/-!
Verification of the Auto-Claude PR review orchestration core.

The repository ships the test suite for the review orchestration core
(`tests/test_auto_pr_review_orchestrator.py`) but the implementation
modules `runners/github/services/auto_pr_review_orchestrator.py` and
`runners/github/models_pkg/pr_review_state.py` themselves are not part of
the source tree here; those parts are modelled from the specification
(each such definition carries a doc comment starting with
`Modelled from the spec:`).  The input sanitizer
(`runners/github/security/input_sanitizer.py`) is present and is embedded
directly from its source.

Python strings are modelled as `List Char` where character-level
operations matter and as `String` elsewhere; timestamps (`datetime.now()`)
are modelled as abstract `Nat` values passed explicitly to the operations
that stamp them.
-/

namespace AutoClaude

/-- Modelled from the spec: the status model of
`runners/github/models_pkg/pr_review_state.py` (absent from the tree), "a
tagged variant over: Pending, AwaitingChecks, Reviewing, Fixing (active
set); ReadyToMerge, Completed, Cancelled, Failed, MaxIterationsReached
(terminal set)". -/
inductive PRReviewStatus where
  | pending
  | awaitingChecks
  | reviewing
  | fixing
  | readyToMerge
  | completed
  | cancelled
  | failed
  | maxIterationsReached
  deriving DecidableEq

/-- Modelled from the spec: `terminal_states()` returns the fixed terminal
set. -/
def PRReviewStatus.terminal_states : List PRReviewStatus :=
  [.readyToMerge, .completed, .cancelled, .failed, .maxIterationsReached]

/-- Modelled from the spec: `active_states()` returns the fixed active
set. -/
def PRReviewStatus.active_states : List PRReviewStatus :=
  [.pending, .awaitingChecks, .reviewing, .fixing]

/-- Modelled from the spec: `is_terminal()` on a status value is a
set-membership test. -/
def PRReviewStatus.is_terminal (s : PRReviewStatus) : Bool :=
  PRReviewStatus.terminal_states.contains s

/-- Modelled from the spec: `is_active()` on a status value is a
set-membership test. -/
def PRReviewStatus.is_active (s : PRReviewStatus) : Bool :=
  PRReviewStatus.active_states.contains s

/-- Modelled from the spec: `IterationRecord`, one per loop pass:
`iteration_number` (1-based), `started_at`, `completed_at` (nil until the
pass finishes), `findings_count`, `fixes_applied`, `ci_status`, `status`
(free-form outcome label), `notes`. -/
structure IterationRecord where
  iteration_number : Nat
  started_at : Nat
  completed_at : Option Nat := none
  findings_count : Nat := 0
  fixes_applied : Nat := 0
  ci_status : String := ""
  status : String := ""
  notes : String := ""
  deriving DecidableEq

/-- Modelled from the spec: `PRReviewOrchestratorState`, the per-PR
aggregate root with identifiers, status, iteration counter, error
counters, cancellation flags and the iteration history. -/
structure PRReviewOrchestratorState where
  pr_number : Nat
  repo : String
  pr_url : String
  branch_name : String
  status : PRReviewStatus := .pending
  current_iteration : Nat := 0
  max_iterations : Nat := 5
  cancellation_requested : Bool := false
  cancelled_by : Option String := none
  cancelled_at : Option Nat := none
  error_count : Nat := 0
  consecutive_failures : Nat := 0
  last_error : Option String := none
  iteration_history : List IterationRecord := []
  completed_at : Option Nat := none
  deriving DecidableEq

namespace PRReviewOrchestratorState

/-- Modelled from the spec: `should_continue()` is true iff
`cancellation_requested == false` AND the status is active AND
`current_iteration < max_iterations`. -/
def should_continue (s : PRReviewOrchestratorState) : Bool :=
  !s.cancellation_requested && s.status.is_active &&
    decide (s.current_iteration < s.max_iterations)

/-- Modelled from the spec: `start_iteration()` increments
`current_iteration`, appends a new record with
`iteration_number = current_iteration` and `started_at = now`, and
returns the record. -/
def start_iteration (now : Nat) (s : PRReviewOrchestratorState) :
    IterationRecord × PRReviewOrchestratorState :=
  let n := s.current_iteration + 1
  let record : IterationRecord := { iteration_number := n, started_at := now }
  (record, { s with
    current_iteration := n,
    iteration_history := s.iteration_history ++ [record] })

/-- Modelled from the spec: `complete_iteration(...)` fills in the most
recently started still-open record and stamps its `completed_at`; calling
it with no open record is a programming error (fails fast), modelled as
`none`. -/
def complete_iteration (findings_count fixes_applied : Nat)
    (ci_status status notes : String) (now : Nat)
    (s : PRReviewOrchestratorState) : Option PRReviewOrchestratorState :=
  match s.iteration_history.getLast? with
  | none => none
  | some record =>
    if record.completed_at.isSome then none
    else
      some { s with iteration_history :=
        s.iteration_history.dropLast ++ [{ record with
          completed_at := some now,
          findings_count := findings_count,
          fixes_applied := fixes_applied,
          ci_status := ci_status,
          status := status,
          notes := notes }] }

/-- Modelled from the spec: `mark_completed(final_status)` sets
`status = final_status` and `completed_at = now`; the only valid
transition target is a terminal status. -/
def mark_completed (final_status : PRReviewStatus) (now : Nat)
    (s : PRReviewOrchestratorState) : PRReviewOrchestratorState :=
  { s with status := final_status, completed_at := some now }

/-- Modelled from the spec: `record_error(message)` increments
`error_count` and `consecutive_failures` and sets `last_error = message`;
it does not change the status. -/
def record_error (message : String) (s : PRReviewOrchestratorState) :
    PRReviewOrchestratorState :=
  { s with
    error_count := s.error_count + 1,
    consecutive_failures := s.consecutive_failures + 1,
    last_error := some message }

/-- Modelled from the spec: `clear_consecutive_failures()` resets
`consecutive_failures` to 0; `error_count` is untouched. -/
def clear_consecutive_failures (s : PRReviewOrchestratorState) :
    PRReviewOrchestratorState :=
  { s with consecutive_failures := 0 }

/-- Modelled from the spec: `request_cancellation(by)` sets
`cancellation_requested = true`, `cancelled_by = by`,
`cancelled_at = now`; it does not itself change the status. -/
def request_cancellation (requested_by : Option String) (now : Nat)
    (s : PRReviewOrchestratorState) : PRReviewOrchestratorState :=
  { s with
    cancellation_requested := true,
    cancelled_by := requested_by,
    cancelled_at := some now }

end PRReviewOrchestratorState

/-- The aggregate invariants stated in §3 of the spec:
`current_iteration == len(iteration_history)`,
`consecutive_failures ≤ error_count`, and `completed_at` is set if and
only if the status is terminal. -/
def StateInvariant (s : PRReviewOrchestratorState) : Prop :=
  s.current_iteration = s.iteration_history.length ∧
  s.consecutive_failures ≤ s.error_count ∧
  s.completed_at.isSome = s.status.is_terminal

instance (s : PRReviewOrchestratorState) : Decidable (StateInvariant s) := by
  unfold StateInvariant
  infer_instance

/-- A fresh `PRReviewOrchestratorState` as constructed on first `run` for
a PR: identifiers provided, everything else at its default. -/
def freshState (pr_number : Nat) (repo pr_url branch_name : String)
    (max_iterations : Nat := 5) : PRReviewOrchestratorState :=
  { pr_number := pr_number, repo := repo, pr_url := pr_url,
    branch_name := branch_name, max_iterations := max_iterations }

/-- Calling `start_iteration()` `n` times in sequence (the spec leaves
`started_at` to the wall clock; the model stamps the pre-call iteration
counter as the timestamp, which the claims never inspect). -/
def startIterationTimes : Nat → PRReviewOrchestratorState →
    PRReviewOrchestratorState
  | 0, s => s
  | n + 1, s =>
    startIterationTimes n (s.start_iteration s.current_iteration).2

/-- Modelled from the spec: the content of the per-PR cancellation-signal
registry `_cancel_events` of the orchestrator — for each PR number,
whether a run is active (an event is registered) and whether its signal
is set. -/
def CancelRegistry : Type := Nat → Option Bool

/-- Modelled from the spec: `cancel(pr_number)` looks up the per-PR
cancellation signal; if the PR has no active run it returns `false`;
otherwise it sets the signal and returns `true`.  The updated registry is
returned alongside the result. -/
def cancel (reg : CancelRegistry) (pr_number : Nat) :
    Bool × CancelRegistry :=
  match reg pr_number with
  | none => (false, reg)
  | some _ =>
    (true, fun n => if n = pr_number then some true else reg n)

/-- Modelled from the spec: durable state storage, one record per PR
number. -/
def StateStore : Type := Nat → Option PRReviewOrchestratorState

/-- The empty store: nothing has ever been saved. -/
def emptyStore : StateStore := fun _ => none

/-- Modelled from the spec: `save(state)` writes the full aggregate to
durable storage keyed by `pr_number`. -/
def save_state (store : StateStore) (state : PRReviewOrchestratorState) :
    StateStore :=
  fun n => if n = state.pr_number then some state else store n

/-- Modelled from the spec: `load(pr_number)` returns the aggregate or a
not-found signal (never throws for "not found"). -/
def load_state (store : StateStore) (pr_number : Nat) :
    Option PRReviewOrchestratorState :=
  store pr_number

/-- Python `str.isspace` for the characters `str.strip()` removes: ASCII
whitespace (including vertical tab and form feed) and the Unicode space
characters. -/
def pyIsSpace (c : Char) : Bool :=
  c.isWhitespace ||
    c ∈ ['\x0b', '\x0c', '\u001C', '\u001D', '\u001E', '\u001F',
         '\u0085', '\u00A0', '\u1680', '\u2000', '\u2001', '\u2002',
         '\u2003', '\u2004', '\u2005', '\u2006', '\u2007', '\u2008',
         '\u2009', '\u200A', '\u2028', '\u2029', '\u202F', '\u205F',
         '\u3000']

/-- Python `str.strip()`: remove leading and trailing whitespace. -/
def pyStrip (l : List Char) : List Char :=
  ((l.dropWhile pyIsSpace).reverse.dropWhile pyIsSpace).reverse

/-- Python `text.split(",")` over `List Char`: split at every comma;
splitting the empty text yields one empty field. -/
def splitComma : List Char → List (List Char)
  | [] => [[]]
  | c :: rest =>
    if c = ',' then [] :: splitComma rest
    else
      match splitComma rest with
      | [] => [[c]]
      | g :: gs => (c :: g) :: gs

/-- Python `str.lower()` over `List Char`. -/
def lowerText (l : List Char) : List Char := l.map Char.toLower

/-- Modelled from the spec: parsing the allow-list configuration value — a
comma-separated list of usernames, each stripped of surrounding
whitespace. -/
def parse_allowed_users (cfg : List Char) : List (List Char) :=
  (splitComma cfg).map pyStrip

/-- Modelled from the spec: `is_user_authorized(username)` reads an
allow-list from configuration (`GITHUB_AUTO_PR_REVIEW_ALLOWED_USERS`,
given here as `Option (List Char)`: `none` when unset); a single wildcard
entry authorizes everyone; otherwise membership is checked
case-insensitively; absence of configuration means "allow none". -/
def is_user_authorized (allowed_users_config : Option (List Char))
    (username : List Char) : Bool :=
  match allowed_users_config with
  | none => false
  | some cfg =>
    let users := parse_allowed_users cfg
    if users = [['*']] then true
    else users.any (fun u => lowerText u = lowerText username)

/-- Modelled from the spec: the external outcome vocabulary of the
controller. -/
inductive OrchestratorResult where
  | ready_to_merge
  | no_findings
  | max_iterations
  | ci_failed
  | cancelled
  | unauthorized
  | pr_closed
  | pr_merged
  | error
  deriving DecidableEq

/-- Modelled from the spec: the run-result summary returned by `run`:
outcome, identifiers, iterations completed, total fixes applied, whether
CI fully passed, an optional error message, elapsed duration, and the
`needs_human_review` flag. -/
structure OrchestratorRunResult where
  result : OrchestratorResult
  pr_number : Nat
  repo : String
  iterations_completed : Nat := 0
  findings_fixed : Nat := 0
  ci_all_passed : Bool := false
  error_message : Option String := none
  duration_seconds : Nat := 0
  needs_human_review : Bool := true
  deriving DecidableEq

/-- Modelled from the spec: the combined per-iteration result of the two
external collaborators (check-waiter and fix-executor, §6): either the
wait or the fix failed with a message, or the pass succeeded with counts
of findings and applied fixes and whether CI was green. -/
inductive IterationOutcome where
  | failure (message : String)
  | success (findings_count fixes_applied : Nat) (ci_green : Bool)

/-- Modelled from the spec: the mapping from the final internal status to
the external outcome tag (§4.3 step 8; the spec notes the exact mapping
is partially inferred). -/
def map_status_to_result : PRReviewStatus → OrchestratorResult
  | .readyToMerge => .ready_to_merge
  | .completed => .no_findings
  | .cancelled => .cancelled
  | .failed => .error
  | .maxIterationsReached => .max_iterations
  | _ => .error

/-- Modelled from the spec: the iterate-until-terminal loop of `run`
(§4.3 step 5).  External nondeterminism is supplied as functions:
`outcomes i` is the collaborators' result for iteration number `i`, and
`cancel_signal k` says whether the cancellation signal is observed set
when checked with `k` iterations already started.  Fuel bounds the
recursion; the loop itself stops as soon as `should_continue()` is
false. -/
def run_loop (outcomes : Nat → IterationOutcome)
    (cancel_signal : Nat → Bool) (triggered_by : String) :
    Nat → PRReviewOrchestratorState → PRReviewOrchestratorState
  | 0, s => s
  | fuel + 1, s =>
    if s.should_continue then
      if cancel_signal s.current_iteration then
        (s.request_cancellation (some triggered_by)
            s.current_iteration).mark_completed .cancelled
          s.current_iteration
      else
        let s1 := (s.start_iteration s.current_iteration).2
        match outcomes s1.current_iteration with
        | .failure msg =>
          let s2 := s1.record_error msg
          let s3 := (s2.complete_iteration 0 0 "failed" "error" msg
            s2.current_iteration).getD s2
          run_loop outcomes cancel_signal triggered_by fuel s3
        | .success findings fixes green =>
          let s2 := s1.clear_consecutive_failures
          let s3 := (s2.complete_iteration findings fixes
            (if green then "passed" else "failed") "completed" ""
            s2.current_iteration).getD s2
          let s4 :=
            if findings = 0 && green then
              s3.mark_completed .readyToMerge s3.current_iteration
            else s3
          run_loop outcomes cancel_signal triggered_by fuel s4
    else s

/-- Total fixes applied across the recorded iteration history. -/
def totalFixes (s : PRReviewOrchestratorState) : Nat :=
  (s.iteration_history.map (fun r => r.fixes_applied)).sum

/-- Modelled from the spec: the controller's `run` operation (§4.3):
authorize the caller (rejecting before any state is touched), load or
create the Review State, drive the loop, close out a still-active state
as `MaxIterationsReached`, and return the run-result summary whose
`needs_human_review` flag is always true. -/
def run (allowed_users_config : Option (List Char))
    (outcomes : Nat → IterationOutcome) (cancel_signal : Nat → Bool)
    (persisted : Option PRReviewOrchestratorState) (pr_number : Nat)
    (repo pr_url branch_name : String) (triggered_by : List Char)
    (max_iterations : Nat) (duration_seconds : Nat) :
    OrchestratorRunResult :=
  if is_user_authorized allowed_users_config triggered_by then
    let s0 := persisted.getD
      (freshState pr_number repo pr_url branch_name max_iterations)
    let s1 := run_loop outcomes cancel_signal (String.mk triggered_by)
      (s0.max_iterations + 1) s0
    let s2 :=
      if s1.status.is_active then
        s1.mark_completed .maxIterationsReached s1.current_iteration
      else s1
    { result := map_status_to_result s2.status,
      pr_number := pr_number,
      repo := repo,
      iterations_completed := s2.current_iteration,
      findings_fixed := totalFixes s2,
      ci_all_passed := s2.status = PRReviewStatus.readyToMerge,
      error_message := s2.last_error,
      duration_seconds := duration_seconds,
      needs_human_review := true }
  else
    { result := .unauthorized,
      pr_number := pr_number,
      repo := repo,
      error_message :=
        some (String.mk ("User ".data ++ triggered_by ++
          " is not authorized".data)),
      duration_seconds := duration_seconds,
      needs_human_review := true }

/-! ## Input sanitizer

Embedded from `apps/backend/runners/github/security/input_sanitizer.py`.
Text is `List Char` (a Python `str` is a sequence of code points).  The
Python `re` module and the `unicodedata` tables are stdlib collaborators
external to the repository; each compiled pattern is modelled abstractly
by the operations the source invokes on it (`findall`, `sub` with the
replacement fixed at the call site, `search`) plus its source text, and
`unicodedata.category`/`unicodedata.name` are abstract functions. -/

/-- Source constant `MAX_CONTENT_CHARS = 10_000` (a Python `int`, hence
`Int` here). -/
def MAX_CONTENT_CHARS : Int := 10000

/-- Source constant `MAX_FILE_PATH_CHARS = 500`. -/
def MAX_FILE_PATH_CHARS : Int := 500

/-- Source constant `MAX_FILENAME_CHARS = 255`. -/
def MAX_FILENAME_CHARS : Int := 255

/-- Source dataclass `SanitizeResult`: result of a sanitization operation. -/
structure SanitizeResult where
  content : List Char
  was_modified : Bool
  was_truncated : Bool
  removed_items : List (List Char) := []
  warnings : List (List Char) := []
  original_length : Nat := 0
  final_length : Nat := 0
  is_safe : Bool := true

/-- A compiled pattern of the Python `re` module (external to the
repository), modelled by the operations the sanitizer invokes on it:
`findall`, `sub` (with the replacement fixed at the call site), `search`
(as a Boolean), and its `pattern` source text. -/
structure CompiledPattern where
  findall : List Char → List (List Char)
  sub : List Char → List Char
  search : List Char → Bool
  descr : List Char

/-- The stdlib collaborators of `InputSanitizer`: the `unicodedata`
tables and the compiled class-level regex patterns. -/
structure SanitizerExternals where
  unicodeCategory : Char → String
  unicodeName : Char → String
  htmlCommentPat : CompiledPattern
  scriptTagPat : CompiledPattern
  styleTagPat : CompiledPattern
  eventHandlerPat : CompiledPattern
  injectionPats : List CompiledPattern
  userContentTagPat : CompiledPattern

/-- Source constant `DANGEROUS_UNICODE_CATEGORIES`: the categories `Cf`, `Co` and `Cn`. -/
def DANGEROUS_UNICODE_CATEGORIES : List String := ["Cf", "Co", "Cn"]

/-- Source constant `DANGEROUS_UNICODE_CHARS`: the explicit dangerous character set. -/
def DANGEROUS_UNICODE_CHARS : List Char :=
  ['\u200B', '\u200C', '\u200D', '\u200E', '\u200F',
   '\u202A', '\u202B', '\u202C', '\u202D', '\u202E',
   '\u2060', '\u2061', '\u2062', '\u2063', '\u2064',
   '\u2066', '\u2067', '\u2068', '\u2069',
   '\uFEFF', '\uFFFE', '\uFFFF']

/-- Source constant `HOMOGLYPH_MAP`: confusable characters and their ASCII equivalents. -/
def HOMOGLYPH_MAP : List (Char × Char) :=
  [('\u0430', 'a'), ('\u0435', 'e'), ('\u043E', 'o'), ('\u0440', 'p'),
   ('\u0441', 'c'), ('\u0443', 'y'), ('\u0445', 'x'), ('\u0456', 'i'),
   ('\u04BB', 'h'), ('\u0501', 'd'), ('\u051B', 'q'), ('\u051D', 'w'),
   ('\u0391', 'A'), ('\u0392', 'B'), ('\u0395', 'E'), ('\u0397', 'H'),
   ('\u0399', 'I'), ('\u039A', 'K'), ('\u039C', 'M'), ('\u039D', 'N'),
   ('\u039F', 'O'), ('\u03A1', 'P'), ('\u03A4', 'T'), ('\u03A7', 'X'),
   ('\u03A5', 'Y'), ('\u0417', 'Z')]

/-- The configuration fields of `InputSanitizer.__init__`; the length
limits are Python `int`s, so negative configured values are
representable. -/
structure InputSanitizer where
  max_content_chars : Int := MAX_CONTENT_CHARS
  max_file_path_chars : Int := MAX_FILE_PATH_CHARS
  detect_injection : Bool := true
  strip_unicode : Bool := true
  normalize_homoglyphs : Bool := true
  log_sanitization : Bool := true

/-- Hex formatting `"U+%04X" % ord(char)` without the prefix: four-digit (or longer) upper-case hex code of
a character. -/
def hexCode (n : Nat) : List Char :=
  let ds := (Nat.toDigits 16 n).map Char.toUpper
  List.replicate (4 - ds.length) '0' ++ ds

/-- Source method `InputSanitizer._strip_dangerous_unicode`: drop every character that
is in `DANGEROUS_UNICODE_CHARS` or whose Unicode category is in
`DANGEROUS_UNICODE_CATEGORIES`, collecting a description of each removed
character. -/
def stripDangerousUnicodeAux (ext : SanitizerExternals) :
    List Char → List Char × List (List Char)
  | [] => ([], [])
  | c :: rest =>
    let (keptRest, removedRest) := stripDangerousUnicodeAux ext rest
    if c ∈ DANGEROUS_UNICODE_CHARS then
      (keptRest,
        (("U+".data ++ hexCode c.toNat ++ " (".data ++
          (ext.unicodeName c).data ++ ")".data) :: removedRest))
    else if ext.unicodeCategory c ∈ DANGEROUS_UNICODE_CATEGORIES then
      (keptRest,
        (("U+".data ++ hexCode c.toNat ++ " (category ".data ++
          (ext.unicodeCategory c).data ++ ")".data) :: removedRest))
    else (c :: keptRest, removedRest)

/-- Source method `InputSanitizer._normalize_homoglyphs`: replace every character found
in `HOMOGLYPH_MAP` by its ASCII equivalent, collecting a description of
each normalization. -/
def normalizeHomoglyphsAux : List Char → List Char × List (List Char)
  | [] => ([], [])
  | c :: rest =>
    let (resRest, normRest) := normalizeHomoglyphsAux rest
    match (HOMOGLYPH_MAP.find? (fun p => p.1 = c)).map (fun p => p.2) with
    | some a =>
      (a :: resRest,
        ("U+".data ++ hexCode c.toNat ++ " -> ".data ++ [a]) :: normRest)
    | none => (c :: resRest, normRest)

/-- The effective maximum length used by `InputSanitizer.sanitize`:
`max_len = max_length or self.max_content_chars` — Python `or` falls back
to the configured value both when `max_length` is `None` and when it is
`0` (falsy); any other value, including a negative one, is truthy and is
kept as the bound. -/
def effective_max (self : InputSanitizer) (max_length : Option Int) : Int :=
  match max_length with
  | some m => if m = 0 then self.max_content_chars else m
  | none => self.max_content_chars

/-- Python `content[:m]` for an `int` bound `m`: a nonnegative `m` keeps
the first `m` characters (at most the whole list); a negative `m` drops
the last `-m` characters, keeping the first `len(content) + m` (at least
none). -/
def pySliceTo (m : Int) (l : List Char) : List Char :=
  if m < 0 then l.take ((l.length : Int) + m).toNat else l.take m.toNat

/-- Decimal rendering `str(m)` of an `int` used in a formatted message. -/
def intText (m : Int) : List Char := (toString m).data

/-- Decimal rendering `str(n)` for a count used in a formatted message. -/
def natText (n : Nat) : List Char := (Nat.repr n).data

/-- Source method `InputSanitizer.sanitize`: strip dangerous Unicode, normalize
homoglyphs, remove HTML comments, script/style tags and event handlers,
warn on injection patterns, escape the user-content delimiters, truncate
to the effective maximum length, and strip surrounding whitespace.
`content_type` is only interpolated into log lines in the source and so
does not appear here. -/
def sanitize (self : InputSanitizer) (ext : SanitizerExternals)
    (content : List Char) (max_length : Option Int) : SanitizeResult :=
  if content = [] then
    { content := [], was_modified := false, was_truncated := false,
      is_safe := true }
  else
    let original_length := content.length
    let max_len := effective_max self max_length
    -- Step 1: strip dangerous Unicode characters
    let step1 :=
      if self.strip_unicode then stripDangerousUnicodeAux ext content
      else (content, [])
    let c1 := step1.1
    let removed1 := step1.2
    let modified1 := !removed1.isEmpty
    -- Step 2: normalize homoglyphs
    let step2 :=
      if self.normalize_homoglyphs then normalizeHomoglyphsAux c1
      else (c1, [])
    let c2 := step2.1
    let removed2 :=
      if step2.2.isEmpty then removed1
      else removed1 ++
        ["Normalized ".data ++ natText step2.2.length ++
          " homoglyph characters".data]
    let modified2 := modified1 || !step2.2.isEmpty
    -- Step 3: remove HTML comments
    let comments := ext.htmlCommentPat.findall c2
    let c3 := if comments.isEmpty then c2 else ext.htmlCommentPat.sub c2
    let removed3 := removed2 ++
      comments.map (fun c =>
        "HTML comment (".data ++ natText c.length ++ " chars)".data)
    let modified3 := modified2 || !comments.isEmpty
    -- Step 4: remove script/style tags
    let scripts := ext.scriptTagPat.findall c3
    let c4a := if scripts.isEmpty then c3 else ext.scriptTagPat.sub c3
    let removed4a :=
      if scripts.isEmpty then removed3
      else removed3 ++ [natText scripts.length ++ " script tags".data]
    let modified4a := modified3 || !scripts.isEmpty
    let styles := ext.styleTagPat.findall c4a
    let c4 := if styles.isEmpty then c4a else ext.styleTagPat.sub c4a
    let removed4 :=
      if styles.isEmpty then removed4a
      else removed4a ++ [natText styles.length ++ " style tags".data]
    let modified4 := modified4a || !styles.isEmpty
    -- Step 5: remove event handlers
    let handlers := ext.eventHandlerPat.findall c4
    let c5 := if handlers.isEmpty then c4 else ext.eventHandlerPat.sub c4
    let removed5 :=
      if handlers.isEmpty then removed4
      else removed4 ++ [natText handlers.length ++ " event handlers".data]
    let modified5 := modified4 || !handlers.isEmpty
    -- Step 6: detect prompt injection patterns (warn only)
    let warnings6 :=
      if self.detect_injection then
        ext.injectionPats.foldl (fun ws p =>
          if (p.findall c5).isEmpty then ws
          else ws ++
            ["Potential injection pattern detected: ".data ++ p.descr])
          []
      else []
    -- Step 7: escape our delimiters if present
    let step7 :=
      if ext.userContentTagPat.search c5 then
        (ext.userContentTagPat.sub c5,
          warnings6 ++ ["Escaped delimiter tags in content".data], true)
      else (c5, warnings6, false)
    let c7 := step7.1
    let warnings7 := step7.2.1
    let modified7 := modified5 || step7.2.2
    -- Step 8: truncate if too long
    let was_truncated := max_len < (c7.length : Int)
    let c8 := if max_len < (c7.length : Int) then pySliceTo max_len c7 else c7
    let modified8 := modified7 || was_truncated
    let warnings8 :=
      if was_truncated then
        warnings7 ++
          ["Content truncated from ".data ++ natText original_length ++
            " to ".data ++ intText max_len ++ " chars".data]
      else warnings7
    -- Step 9: clean up whitespace
    let c9 := pyStrip c8
    { content := c9,
      was_modified := modified8,
      was_truncated := was_truncated,
      removed_items := removed5,
      warnings := warnings8,
      original_length := original_length,
      final_length := c9.length,
      is_safe := warnings8.isEmpty }

/-- A concrete instantiation of the stdlib collaborators agreeing with
Python's `re` and `unicodedata` behaviour on inputs made of plain ASCII
lower-case letters (such as `"a"` and `"abcdefgh"`): no class pattern
matches such an input and `unicodedata.category` of each letter is
`"Ll"`. -/
def plainLetterExternals : SanitizerExternals :=
  { unicodeCategory := fun _ => "Ll",
    unicodeName := fun _ => "UNKNOWN",
    htmlCommentPat :=
      { findall := fun _ => [], sub := id, search := fun _ => false,
        descr := [] },
    scriptTagPat :=
      { findall := fun _ => [], sub := id, search := fun _ => false,
        descr := [] },
    styleTagPat :=
      { findall := fun _ => [], sub := id, search := fun _ => false,
        descr := [] },
    eventHandlerPat :=
      { findall := fun _ => [], sub := id, search := fun _ => false,
        descr := [] },
    injectionPats := [],
    userContentTagPat :=
      { findall := fun _ => [], sub := id, search := fun _ => false,
        descr := [] } }

/-! ## Helper lemmas -/

theorem pyStrip_length_le (l : List Char) :
    (pyStrip l).length ≤ l.length := by
  unfold pyStrip
  rw [List.length_reverse]
  refine le_trans (List.Sublist.length_le (List.dropWhile_sublist _)) ?_
  rw [List.length_reverse]
  exact List.Sublist.length_le (List.dropWhile_sublist _)

theorem pySliceTruncate_length_le (m : Int) (l : List Char) (h : 0 ≤ m) :
    ((pyStrip (if m < (l.length : Int) then pySliceTo m l else l)).length
      : Int) ≤ m := by
  by_cases hlt : m < (l.length : Int)
  · rw [if_pos hlt]
    unfold pySliceTo
    rw [if_neg (not_lt.mpr h)]
    have h1 : (pyStrip (l.take m.toNat)).length ≤ m.toNat := by
      refine le_trans (pyStrip_length_le _) ?_
      rw [List.length_take]
      exact min_le_left _ _
    calc ((pyStrip (l.take m.toNat)).length : Int)
        ≤ (m.toNat : Int) := by exact_mod_cast h1
      _ = m := Int.toNat_of_nonneg h
  · rw [if_neg hlt]
    have h2 : ((pyStrip l).length : Int) ≤ (l.length : Int) := by
      exact_mod_cast pyStrip_length_le l
    exact le_trans h2 (not_lt.mp hlt)

theorem load_state_foldl_save_none
    (saves : List PRReviewOrchestratorState) :
    ∀ store : StateStore, ∀ pr : Nat, store pr = none →
      pr ∉ saves.map (fun st => st.pr_number) →
      load_state (saves.foldl save_state store) pr = none := by
  induction saves with
  | nil => intro store pr h _; exact h
  | cons st rest ih =>
    intro store pr h hmem
    rw [List.map_cons, List.mem_cons] at hmem
    push_neg at hmem
    refine ih (save_state store st) pr ?_ hmem.2
    unfold save_state
    rw [if_neg hmem.1, h]

theorem startIterationTimes_spec (n : Nat) :
    ∀ s : PRReviewOrchestratorState,
      s.current_iteration = s.iteration_history.length →
      (s.iteration_history.map fun r => r.iteration_number) =
        (List.range s.iteration_history.length).map (fun i => i + 1) →
      (startIterationTimes n s).current_iteration =
          s.iteration_history.length + n ∧
      (startIterationTimes n s).iteration_history.length =
          s.iteration_history.length + n ∧
      ((startIterationTimes n s).iteration_history.map
          fun r => r.iteration_number) =
        (List.range (s.iteration_history.length + n)).map
          (fun i => i + 1) := by
  induction n with
  | zero =>
    intro s h1 h2
    exact ⟨by simpa [startIterationTimes] using h1,
      by simp [startIterationTimes], by simpa [startIterationTimes] using h2⟩
  | succ n ih =>
    intro s h1 h2
    have hstep :
        ((s.start_iteration s.current_iteration).2).iteration_history =
          s.iteration_history ++
            [{ iteration_number := s.current_iteration + 1,
               started_at := s.current_iteration }] := rfl
    have hcur :
        ((s.start_iteration s.current_iteration).2).current_iteration =
          s.current_iteration + 1 := rfl
    have hlen :
        ((s.start_iteration s.current_iteration).2).iteration_history.length
          = s.iteration_history.length + 1 := by
      rw [hstep, List.length_append, List.length_cons, List.length_nil]
    have hmap :
        (((s.start_iteration s.current_iteration).2).iteration_history.map
            fun r => r.iteration_number) =
          (List.range (s.iteration_history.length + 1)).map
            (fun i => i + 1) := by
      rw [hstep, List.map_append, h2, List.range_succ, List.map_append,
        h1]
      rfl
    have := ih ((s.start_iteration s.current_iteration).2)
      (by rw [hcur, hlen, h1]) (by rw [hlen]; exact hmap)
    rw [hlen] at this
    refine ⟨?_, ?_, ?_⟩
    · rw [show s.iteration_history.length + (n + 1) =
        s.iteration_history.length + 1 + n from by omega]
      exact (show startIterationTimes (n + 1) s =
        startIterationTimes n
          ((s.start_iteration s.current_iteration).2) from rfl) ▸ this.1
    · rw [show s.iteration_history.length + (n + 1) =
        s.iteration_history.length + 1 + n from by omega]
      exact (show startIterationTimes (n + 1) s =
        startIterationTimes n
          ((s.start_iteration s.current_iteration).2) from rfl) ▸ this.2.1
    · rw [show s.iteration_history.length + (n + 1) =
        s.iteration_history.length + 1 + n from by omega]
      exact (show startIterationTimes (n + 1) s =
        startIterationTimes n
          ((s.start_iteration s.current_iteration).2) from rfl) ▸ this.2.2

/-! ## Claim theorems -/

/-- C1: For every ReviewState, `should_continue()` returns true if and
only if `cancellation_requested` is false, the status is in the active
set, and `current_iteration < max_iterations`; in particular it returns
false whenever `cancellation_requested` is true, and false once
`current_iteration == max_iterations` even with an active status and no
cancellation. -/
theorem C1_should_continue_iff (s : PRReviewOrchestratorState) :
    (s.should_continue = true ↔
      s.cancellation_requested = false ∧ s.status.is_active = true ∧
        s.current_iteration < s.max_iterations) ∧
    (s.cancellation_requested = true → s.should_continue = false) ∧
    (s.current_iteration = s.max_iterations → s.should_continue = false) := by
  unfold PRReviewOrchestratorState.should_continue
  refine ⟨?_, ?_, ?_⟩
  · simp [Bool.and_eq_true, Bool.not_eq_true', and_assoc]
  · intro h
    simp [h]
  · intro h
    simp [h]

/-- C1 witness: a fresh state with the cancellation flag raised does not
continue, via `C1_should_continue_iff`. -/
theorem C1_witness :
    PRReviewOrchestratorState.should_continue
      { freshState 123 "owner/repo" "url" "feature" 5 with
        cancellation_requested := true } = false :=
  (C1_should_continue_iff _).2.1 rfl

/-- C2: every mutating operation of the ReviewState aggregate
(`start_iteration`, `complete_iteration`, `mark_completed` with a
terminal target, `record_error`, `clear_consecutive_failures`,
`request_cancellation`) preserves the invariants
`current_iteration == len(iteration_history)`,
`consecutive_failures ≤ error_count`, and `completed_at` set iff the
status is terminal. -/
theorem C2_mutators_preserve_invariants (s : PRReviewOrchestratorState)
    (h : StateInvariant s) :
    (∀ now, StateInvariant (s.start_iteration now).2) ∧
    (∀ fc fa ci st nt now s',
      s.complete_iteration fc fa ci st nt now = some s' →
        StateInvariant s') ∧
    (∀ fs now, fs.is_terminal = true →
      StateInvariant (s.mark_completed fs now)) ∧
    (∀ m, StateInvariant (s.record_error m)) ∧
    StateInvariant s.clear_consecutive_failures ∧
    (∀ rb now, StateInvariant (s.request_cancellation rb now)) := by
  obtain ⟨h1, h2, h3⟩ := h
  refine ⟨?_, ?_, ?_, ?_, ?_, ?_⟩
  · intro now
    refine ⟨?_, h2, h3⟩
    simp [PRReviewOrchestratorState.start_iteration, h1]
  · intro fc fa ci st nt now s' hs
    unfold PRReviewOrchestratorState.complete_iteration at hs
    split at hs
    · exact absurd hs (by simp)
    · rename_i record hlast
      split at hs
      · exact absurd hs (by simp)
      · have hne : s.iteration_history ≠ [] := by
          intro he
          rw [he] at hlast
          exact absurd hlast (by simp)
        have hs' := Option.some.inj hs
        subst hs'
        refine ⟨?_, h2, h3⟩
        simp only [List.length_append, List.length_cons,
          List.length_nil, List.length_dropLast]
        have hpos : 0 < s.iteration_history.length :=
          List.length_pos.mpr hne
        omega
  · intro fs now hfs
    exact ⟨h1, h2, by
      simp [PRReviewOrchestratorState.mark_completed, hfs]⟩
  · intro m
    exact ⟨h1, Nat.succ_le_succ h2, h3⟩
  · exact ⟨h1, Nat.zero_le _, h3⟩
  · intro rb now
    exact ⟨h1, h2, h3⟩

/-- C2 witness: the invariants hold after `record_error` on a fresh
state, via `C2_mutators_preserve_invariants`. -/
theorem C2_witness :
    StateInvariant
      ((freshState 123 "owner/repo" "url" "feature" 5).record_error
        "boom") :=
  (C2_mutators_preserve_invariants _ (by decide)).2.2.2.1 "boom"

/-- C3: `terminal_states()` and `active_states()` are the documented
fixed sets, they are disjoint, together they cover every status variant,
and for every status `is_terminal()` is the negation of `is_active()`. -/
theorem C3_status_partition :
    PRReviewStatus.terminal_states =
      [.readyToMerge, .completed, .cancelled, .failed,
        .maxIterationsReached] ∧
    PRReviewStatus.active_states =
      [.pending, .awaitingChecks, .reviewing, .fixing] ∧
    (∀ s : PRReviewStatus,
      s ∈ PRReviewStatus.terminal_states →
        s ∉ PRReviewStatus.active_states) ∧
    (∀ s : PRReviewStatus,
      s ∈ PRReviewStatus.terminal_states ∨
        s ∈ PRReviewStatus.active_states) ∧
    (∀ s : PRReviewStatus, s.is_terminal = !s.is_active) := by
  refine ⟨rfl, rfl, ?_, ?_, ?_⟩ <;> intro s <;> cases s <;> decide

/-- C3 witness: a terminal status is not active, via
`C3_status_partition`. -/
theorem C3_witness :
    PRReviewStatus.completed ∉ PRReviewStatus.active_states :=
  C3_status_partition.2.2.1 .completed (by decide)

/-- C4: with the allow-list unset every username is rejected; with the
single wildcard entry every username is accepted; otherwise a username is
accepted exactly when it matches some listed entry case-insensitively —
in particular the list `"A,b"` accepts `"a"`, `"A"`, `"B"`, `"b"` and
rejects every username not matching `a` or `b` case-insensitively. -/
theorem C4_authorization (username : List Char) :
    (is_user_authorized none username = false) ∧
    (is_user_authorized (some "*".data) username = true) ∧
    (∀ cfg : List Char, parse_allowed_users cfg ≠ [['*']] →
      (is_user_authorized (some cfg) username = true ↔
        ∃ entry ∈ parse_allowed_users cfg,
          lowerText entry = lowerText username)) ∧
    (is_user_authorized (some "A,b".data) "a".data = true ∧
      is_user_authorized (some "A,b".data) "A".data = true ∧
      is_user_authorized (some "A,b".data) "B".data = true ∧
      is_user_authorized (some "A,b".data) "b".data = true) ∧
    (∀ u : List Char, lowerText u ≠ "a".data → lowerText u ≠ "b".data →
      is_user_authorized (some "A,b".data) u = false) := by
  refine ⟨rfl, ?_, ?_, by decide, ?_⟩
  · unfold is_user_authorized
    dsimp only
    rw [show parse_allowed_users "*".data = [['*']] from by decide]
    simp
  · intro cfg hcfg
    unfold is_user_authorized
    dsimp only
    rw [if_neg hcfg, List.any_eq_true]
    simp
  · intro u hu1 hu2
    unfold is_user_authorized
    dsimp only
    rw [show parse_allowed_users "A,b".data = ["A".data, "b".data]
      from by decide]
    rw [if_neg (by decide)]
    simp only [List.any_cons, List.any_nil, Bool.or_eq_false_iff,
      decide_eq_false_iff_not]
    refine ⟨?_, ?_, trivial⟩
    · intro he
      exact hu1 (by rw [← he]; decide)
    · intro he
      exact hu2 (by rw [← he]; decide)

/-- C4 witness: the allow-list `"A,b"` rejects the username `"zed"`, via
`C4_authorization`. -/
theorem C4_witness :
    is_user_authorized (some "A,b".data) "zed".data = false :=
  (C4_authorization "zed".data).2.2.2.2 "zed".data (by decide) (by decide)

/-- C5: every run-result returned by the controller's `run` operation has
`needs_human_review = true`, for every input and every outcome. -/
theorem C5_needs_human_review_always (allowed : Option (List Char))
    (outcomes : Nat → IterationOutcome) (cancel_signal : Nat → Bool)
    (persisted : Option PRReviewOrchestratorState) (pr_number : Nat)
    (repo pr_url branch_name : String) (triggered_by : List Char)
    (max_iterations duration_seconds : Nat) :
    (run allowed outcomes cancel_signal persisted pr_number repo pr_url
      branch_name triggered_by max_iterations
      duration_seconds).needs_human_review = true := by
  unfold run
  split <;> rfl

/-- C6: saving a ReviewState and then loading the same PR number returns
the aggregate that was saved, and loading a PR number that was never
saved returns the not-found signal `none`. -/
theorem C6_save_load_roundtrip (store : StateStore)
    (state : PRReviewOrchestratorState) :
    load_state (save_state store state) state.pr_number = some state ∧
    (∀ saves : List PRReviewOrchestratorState, ∀ pr : Nat,
      pr ∉ saves.map (fun st => st.pr_number) →
        load_state (saves.foldl save_state emptyStore) pr = none) := by
  constructor
  · unfold load_state save_state
    rw [if_pos rfl]
  · intro saves pr hmem
    exact load_state_foldl_save_none saves emptyStore pr rfl hmem

/-- C6 witness: loading PR 999 from a store where only PR 123 was ever
saved returns `none`, via `C6_save_load_roundtrip`. -/
theorem C6_witness :
    load_state
      ([freshState 123 "owner/repo" "url" "feature" 5].foldl save_state
        emptyStore) 999 = none :=
  (C6_save_load_roundtrip emptyStore
    (freshState 123 "owner/repo" "url" "feature" 5)).2
    [freshState 123 "owner/repo" "url" "feature" 5] 999 (by decide)

/-- C7: starting from a fresh ReviewState, calling `start_iteration()`
`n` times yields `current_iteration == n` and
`len(iteration_history) == n`, and for every index `i < n`,
`iteration_history[i].iteration_number == i+1`. -/
theorem C7_start_iteration_n_times (pr : Nat)
    (repo pr_url branch : String) (max_iterations n : Nat) :
    (startIterationTimes n
        (freshState pr repo pr_url branch max_iterations)).current_iteration
      = n ∧
    (startIterationTimes n (freshState pr repo pr_url branch
        max_iterations)).iteration_history.length = n ∧
    ∀ i, ∀ hi : i < (startIterationTimes n (freshState pr repo pr_url
        branch max_iterations)).iteration_history.length,
      ((startIterationTimes n (freshState pr repo pr_url branch
          max_iterations)).iteration_history.get
        ⟨i, hi⟩).iteration_number = i + 1 := by
  have h := startIterationTimes_spec n
    (freshState pr repo pr_url branch max_iterations) rfl rfl
  have hzero : (freshState pr repo pr_url branch
      max_iterations).iteration_history.length = 0 := rfl
  rw [hzero, Nat.zero_add] at h
  refine ⟨h.1, h.2.1, ?_⟩
  intro i hi
  have hmap := h.2.2
  have hi2 : i < ((startIterationTimes n (freshState pr repo pr_url
      branch max_iterations)).iteration_history.map
        fun r => r.iteration_number).length := by
    rw [List.length_map]
    exact hi
  have hone : ((startIterationTimes n (freshState pr repo pr_url branch
      max_iterations)).iteration_history.map
        fun r => r.iteration_number)[i] = i + 1 := by
    simp only [hmap]
    rw [List.getElem_map, List.getElem_range]
  simp only [List.getElem_map] at hone
  rw [List.get_eq_getElem]
  exact hone

/-- C7 witness: after two `start_iteration()` calls on a fresh state the
record at index 1 has `iteration_number = 2`, via
`C7_start_iteration_n_times`. -/
theorem C7_witness :
    ((startIterationTimes 2
        (freshState 123 "owner/repo" "url" "feature" 5)).iteration_history.get
      ⟨1, by decide⟩).iteration_number = 2 :=
  (C7_start_iteration_n_times 123 "owner/repo" "url" "feature" 5 2).2.2 1
    (by decide)

/-- C8: on a fresh ReviewState, `record_error` twice yields
`error_count == 2` and `consecutive_failures == 2` with `last_error` the
most recent message; a subsequent `clear_consecutive_failures()` yields
`consecutive_failures == 0` while `error_count` remains 2. -/
theorem C8_error_tracking (pr : Nat) (repo pr_url branch : String)
    (max_iterations : Nat) (m1 m2 : String) :
    (((freshState pr repo pr_url branch max_iterations).record_error
        m1).record_error m2).error_count = 2 ∧
    (((freshState pr repo pr_url branch max_iterations).record_error
        m1).record_error m2).consecutive_failures = 2 ∧
    (((freshState pr repo pr_url branch max_iterations).record_error
        m1).record_error m2).last_error = some m2 ∧
    ((((freshState pr repo pr_url branch max_iterations).record_error
        m1).record_error
        m2).clear_consecutive_failures).consecutive_failures = 0 ∧
    ((((freshState pr repo pr_url branch max_iterations).record_error
        m1).record_error m2).clear_consecutive_failures).error_count
      = 2 :=
  ⟨rfl, rfl, rfl, rfl, rfl⟩

/-- C9: `cancel(pr_number)` returns false and changes nothing when no run
is active for that PR number; when a run is active it sets that PR's
cancellation signal and returns true. -/
theorem C9_cancel (reg : CancelRegistry) (pr : Nat) :
    (reg pr = none → cancel reg pr = (false, reg)) ∧
    (∀ b, reg pr = some b →
      (cancel reg pr).1 = true ∧ (cancel reg pr).2 pr = some true) := by
  unfold cancel
  constructor
  · intro h
    rw [h]
  · intro b h
    rw [h]
    exact ⟨rfl, by simp⟩

/-- C9 witness: cancelling PR 5 while a run is active for it returns
true, via `C9_cancel`. -/
theorem C9_witness :
    (cancel (fun n => if n = 5 then some false else none) 5).1 = true :=
  ((C9_cancel (fun n => if n = 5 then some false else none) 5).2 false
    (by decide)).1

/-- C10 counterexample: the claim's effective maximum is "the
`max_length` argument when given"; the source violates this bound twice
over.  Python's `max_length or self.max_content_chars` falls back to the
configured default when `max_length` is `0`, so sanitizing `"a"` with
`max_length = 0` returns content of length 1, not at most 0; and a
negative `max_length` is truthy and is used directly as a slice bound
that only drops trailing characters, so sanitizing `"abcdefgh"` with
`max_length = -1` returns content of length 7, not at most -1. -/
theorem C10_counterexample :
    ¬ (((sanitize {} plainLetterExternals ['a']
        (some 0)).content.length : Int) ≤ 0) ∧
    ¬ (((sanitize {} plainLetterExternals
        ['a', 'b', 'c', 'd', 'e', 'f', 'g', 'h']
        (some (-1))).content.length : Int) ≤ -1) := by
  refine ⟨by decide, by decide⟩

/-- C10 (amended): for every input and configuration,
`InputSanitizer.sanitize` returns content of length at most the effective
maximum whenever that effective maximum is nonnegative, where the
effective maximum is the `max_length` argument when given and nonzero,
and the configured `max_content_chars` otherwise; for a negative
effective maximum Python's slicing only drops trailing characters and no
such bound holds. -/
theorem C10_sanitize_length_le (self : InputSanitizer)
    (ext : SanitizerExternals) (content : List Char)
    (max_length : Option Int)
    (h : 0 ≤ effective_max self max_length) :
    ((sanitize self ext content max_length).content.length : Int) ≤
      effective_max self max_length := by
  unfold sanitize
  split
  · simpa using h
  · exact pySliceTruncate_length_le _ _ h

/-- C10 witness: with the default configuration and `max_length = 5` the
effective maximum is 5 and is nonnegative, so the sanitized content of
`"a"` has length at most 5, via `C10_sanitize_length_le`. -/
theorem C10_witness :
    ((sanitize {} plainLetterExternals ['a']
        (some 5)).content.length : Int) ≤
      effective_max {} (some 5) :=
  C10_sanitize_length_le {} plainLetterExternals ['a'] (some 5)
    (by decide)

end AutoClaude
